import Mathlib

/-!
Shallow embedding of the wgputil library (src/binding.rs, src/shader.rs,
src/texture.rs, src/util.rs, src/lib.rs) for checking its specification.

Modelling conventions:
- Rust byte buffers (Vec<u8>, &[u8]) are embedded as List Nat, each element a byte value.
- GPU resource handles (buffers, texture views, samplers) are embedded as Nat identifiers;
  the binding layer never inspects them.
- Machine integers are Nat with an explicit reduction modulo 2 ^ 32 wherever the Rust code
  performs a cast to u32 or u32 arithmetic.
- Calls issued against the external device, queue or command encoder are reified into an
  explicit trace (List DeviceCall, List EncoderCall); a function that returns an error
  before reaching a device call produces a trace without that call.
- Rust computations that can abort the process (todo, unwrap on None or Err, an explicit
  abort on contract violation) return PanicOr values, with the aborting outcome a
  distinguished constructor.
- External collaborators (wgpu format tables, the image crate, the standard library file
  system and UTF-8 routines) are modelled by explicit executable definitions whose doc
  comments name their origin.
-/

namespace Wgputil

/-- Reduction of a Nat to the value of its cast to u32, as performed by the Rust
expressions of the form x as u32 and by u32 arithmetic. -/
def toU32 (n : Nat) : Nat := n % 2 ^ 32

/-- Outcome of a Rust computation that either returns a value or aborts the process
(todo macro, unwrap failure, explicit abort). -/
inductive PanicOr (α : Type) where
  | panics
  | ok (val : α)
  deriving DecidableEq, Repr

/-! ## wgpu data model (external dependency), as used by this library -/

/-- GPU texture pixel formats: the subset of wgpu TextureFormat the library dispatches on,
plus representative formats that lack a defined per-pixel copy size. -/
inductive TextureFormat where
  | R8Unorm
  | R16Unorm
  | Rgba8Unorm
  | Rgba8UnormSrgb
  | Rgba16Unorm
  | Rgba32Float
  | Depth24Plus
  | Depth24PlusStencil8
  deriving DecidableEq, Repr

/-- Modelled from wgpu (external dependency): TextureFormat::block_copy_size(None), the
number of bytes one texel occupies, and none when the format has no defined per-pixel
copy size (such as a combined depth-stencil format queried without an aspect, or
Depth24Plus). -/
def TextureFormat.blockCopySize : TextureFormat → Option Nat
  | .R8Unorm => some 1
  | .R16Unorm => some 2
  | .Rgba8Unorm => some 4
  | .Rgba8UnormSrgb => some 4
  | .Rgba16Unorm => some 8
  | .Rgba32Float => some 16
  | .Depth24Plus => none
  | .Depth24PlusStencil8 => none

/-- wgpu Extent3d. -/
structure Extent3d where
  width : Nat
  height : Nat
  depth_or_array_layers : Nat
  deriving DecidableEq, Repr

/-- wgpu TextureDimension. -/
inductive TextureDimension where
  | D1
  | D2
  | D3
  deriving DecidableEq, Repr

/-- wgpu TextureDescriptor; usage is kept as a raw bit set. -/
structure TextureDescriptor where
  label : Option String
  size : Extent3d
  mip_level_count : Nat
  sample_count : Nat
  dimension : TextureDimension
  format : TextureFormat
  usage : Nat
  view_formats : List TextureFormat
  deriving DecidableEq, Repr

/-- wgpu TexelCopyBufferLayout. -/
structure TexelCopyBufferLayout where
  offset : Nat
  bytes_per_row : Option Nat
  rows_per_image : Option Nat
  deriving DecidableEq, Repr

/-- wgpu TextureSampleType. -/
inductive TextureSampleType where
  | float (filterable : Bool)
  | depth
  | sint
  | uint
  deriving DecidableEq, Repr

/-- wgpu TextureViewDimension. -/
inductive TextureViewDimension where
  | D1
  | D2
  | D2Array
  | Cube
  | CubeArray
  | D3
  deriving DecidableEq, Repr

/-- wgpu StorageTextureAccess. -/
inductive StorageTextureAccess where
  | writeOnly
  | readOnly
  | readWrite
  deriving DecidableEq, Repr

/-- wgpu SamplerBindingType. -/
inductive SamplerBindingType where
  | filtering
  | nonFiltering
  | comparison
  deriving DecidableEq, Repr

/-- wgpu BufferBindingType. -/
inductive BufferBindingType where
  | uniform
  | storage (read_only : Bool)
  deriving DecidableEq, Repr

/-- wgpu BindingType. -/
inductive BindingType where
  | buffer (ty : BufferBindingType) (has_dynamic_offset : Bool) (min_binding_size : Option Nat)
  | texture (sample_type : TextureSampleType) (view_dimension : TextureViewDimension)
      (multisampled : Bool)
  | storageTexture (access : StorageTextureAccess) (format : TextureFormat)
      (view_dimension : TextureViewDimension)
  | sampler (ty : SamplerBindingType)
  deriving DecidableEq, Repr

/-- wgpu BindingResource: concrete GPU resources are embedded as Nat handles. The buffer
case stands for Buffer::as_entire_binding of the given buffer handle. -/
inductive BindingResource where
  | buffer (id : Nat)
  | textureView (id : Nat)
  | textureViewArray (ids : List Nat)
  | sampler (id : Nat)
  | samplerArray (ids : List Nat)
  deriving DecidableEq, Repr

/-- Number of concrete resource handles carried by a BindingResource. -/
def BindingResource.resourceCount : BindingResource → Nat
  | .buffer _ => 1
  | .textureView _ => 1
  | .textureViewArray ids => ids.length
  | .sampler _ => 1
  | .samplerArray ids => ids.length

/-- Modelled from wgpu (external dependency): the bit set ShaderStages::all()
(VERTEX, FRAGMENT and COMPUTE). -/
def shaderStagesAll : Nat := 7

/-- wgpu BindGroupLayoutEntry; count models Option of NonZeroU32 as an Option Nat whose
payload is never zero when produced by BindingEntry.build. -/
structure BindGroupLayoutEntry where
  binding : Nat
  visibility : Nat
  ty : BindingType
  count : Option Nat
  deriving DecidableEq, Repr

/-- wgpu BindGroupEntry. -/
structure BindGroupEntry where
  binding : Nat
  resource : BindingResource
  deriving DecidableEq, Repr

/-! ## src/binding.rs -/

/-- BindingEntry from src/binding.rs: a binding kind, an optional array arity, and the
bound resource. -/
structure BindingEntry where
  binding_type : BindingType
  count : Option Nat
  resource : BindingResource
  deriving DecidableEq, Repr

/-- bind_buffer_uniform from src/binding.rs. -/
def bind_buffer_uniform (buffer : Nat) : BindingEntry :=
  { binding_type := .buffer .uniform false none,
    count := none,
    resource := .buffer buffer }

/-- bind_buffer_storage from src/binding.rs. -/
def bind_buffer_storage (buffer : Nat) (read_only : Bool) : BindingEntry :=
  { binding_type := .buffer (.storage read_only) false none,
    count := none,
    resource := .buffer buffer }

/-- bind_texture from src/binding.rs. -/
def bind_texture (view : Nat) (sample_type : TextureSampleType)
    (view_dimension : TextureViewDimension) : BindingEntry :=
  { binding_type := .texture sample_type view_dimension false,
    count := none,
    resource := .textureView view }

/-- bind_textures from src/binding.rs. -/
def bind_textures (views : List Nat) (sample_type : TextureSampleType)
    (view_dimension : TextureViewDimension) : BindingEntry :=
  { binding_type := .texture sample_type view_dimension false,
    count := some views.length,
    resource := .textureViewArray views }

/-- bind_storage_texture from src/binding.rs. -/
def bind_storage_texture (view : Nat) (format : TextureFormat)
    (view_dimension : TextureViewDimension) (access : StorageTextureAccess) : BindingEntry :=
  { binding_type := .storageTexture access format view_dimension,
    count := none,
    resource := .textureView view }

/-- bind_storage_textures from src/binding.rs. -/
def bind_storage_textures (views : List Nat) (format : TextureFormat)
    (view_dimension : TextureViewDimension) (access : StorageTextureAccess) : BindingEntry :=
  { binding_type := .storageTexture access format view_dimension,
    count := some views.length,
    resource := .textureViewArray views }

/-- bind_sampler from src/binding.rs. -/
def bind_sampler (sampler : Nat) (binding_type : SamplerBindingType) : BindingEntry :=
  { binding_type := .sampler binding_type,
    count := none,
    resource := .sampler sampler }

/-- bind_samplers from src/binding.rs. -/
def bind_samplers (samplers : List Nat) (binding_type : SamplerBindingType) : BindingEntry :=
  { binding_type := .sampler binding_type,
    count := some samplers.length,
    resource := .samplerArray samplers }

/-- BindingEntry::build from src/binding.rs: produce a linked layout entry and group entry
for a given binding index. The count map composed with NonZero::new is modelled as a cast
to u32 followed by mapping zero to none. -/
def BindingEntry.build (e : BindingEntry) (index : Nat) :
    BindGroupLayoutEntry × BindGroupEntry :=
  ({ binding := toU32 index,
     visibility := shaderStagesAll,
     ty := e.binding_type,
     count := (e.count.map toU32).bind (fun c => if c = 0 then none else some c) },
   { binding := toU32 index,
     resource := e.resource })

/-! ## src/shader.rs data model -/

/-- ShaderBackend from src/shader.rs. -/
inductive ShaderBackend where
  | Wgsl
  | Spirv
  deriving DecidableEq, Repr

/-- ShaderMetadata from src/shader.rs. -/
structure ShaderMetadata where
  name : String
  path : String
  backend : ShaderBackend
  deriving DecidableEq, Repr

/-- ShaderSource from src/shader.rs: metadata plus an optional raw byte payload; a payload
of none is the fallback state. -/
structure ShaderSource where
  metadata : ShaderMetadata
  source : Option (List Nat)
  deriving DecidableEq, Repr

/-- The file system as seen through the standard library read routines: a map from path to
the raw bytes of the file, or none when the read fails (missing file or IO error). -/
structure FS where
  files : String → Option (List Nat)

/-- Is a byte a UTF-8 continuation byte (0x80 to 0xBF). -/
def isUtf8Cont (b : Nat) : Bool := 0x80 ≤ b && b ≤ 0xBF

/-- Modelled from the Rust standard library (external dependency): validity of a byte
sequence as UTF-8, as enforced by fs::read_to_string and str::from_utf8. Overlong
encodings, surrogates and values above 0x10FFFF are invalid. -/
def validUtf8 : List Nat → Bool
  | [] => true
  | b :: rest =>
    if b ≤ 0x7F then validUtf8 rest
    else if 0xC2 ≤ b && b ≤ 0xDF then
      match rest with
      | c1 :: r => isUtf8Cont c1 && validUtf8 r
      | [] => false
    else if b = 0xE0 then
      match rest with
      | c1 :: c2 :: r => (0xA0 ≤ c1 && c1 ≤ 0xBF) && isUtf8Cont c2 && validUtf8 r
      | _ => false
    else if (0xE1 ≤ b && b ≤ 0xEC) || b = 0xEE || b = 0xEF then
      match rest with
      | c1 :: c2 :: r => isUtf8Cont c1 && isUtf8Cont c2 && validUtf8 r
      | _ => false
    else if b = 0xED then
      match rest with
      | c1 :: c2 :: r => (0x80 ≤ c1 && c1 ≤ 0x9F) && isUtf8Cont c2 && validUtf8 r
      | _ => false
    else if b = 0xF0 then
      match rest with
      | c1 :: c2 :: c3 :: r =>
        (0x90 ≤ c1 && c1 ≤ 0xBF) && isUtf8Cont c2 && isUtf8Cont c3 && validUtf8 r
      | _ => false
    else if 0xF1 ≤ b && b ≤ 0xF3 then
      match rest with
      | c1 :: c2 :: c3 :: r =>
        isUtf8Cont c1 && isUtf8Cont c2 && isUtf8Cont c3 && validUtf8 r
      | _ => false
    else if b = 0xF4 then
      match rest with
      | c1 :: c2 :: c3 :: r =>
        (0x80 ≤ c1 && c1 ≤ 0x8F) && isUtf8Cont c2 && isUtf8Cont c3 && validUtf8 r
      | _ => false
    else false

/-- name_from_path from src/util.rs. Modelled from the standard library Path::file_name
composed with to_str (always defined in this string model): the final meaningful path
component, none when the path ends in a parent-directory component or has none. -/
def name_from_path (path : String) : Option String :=
  match ((path.splitOn "/").filter (fun c => c ≠ "" && c ≠ ".")).getLast? with
  | some c => if c = ".." then none else some c
  | none => none

/-- The inner helper read_shader_source of ShaderSource::load from src/shader.rs: the Wgsl
backend reads the file as UTF-8 text and stores its bytes (failing on invalid UTF-8), the
Spirv backend reads raw bytes. -/
def read_shader_source (fs : FS) (path : String) (backend : ShaderBackend) :
    Option (List Nat) :=
  match backend with
  | .Wgsl =>
    match fs.files path with
    | some bytes => if validUtf8 bytes then some bytes else none
    | none => none
  | .Spirv => fs.files path

/-- ShaderSource::load from src/shader.rs: build the metadata from the path and attempt
the read, swallowing any failure into a payload of none. -/
def ShaderSource.load (fs : FS) (path : String) (backend : ShaderBackend) : ShaderSource :=
  let name := (name_from_path path).getD ""
  let metadata : ShaderMetadata := { name := name, path := path, backend := backend }
  { metadata := metadata, source := read_shader_source fs metadata.path backend }

/-- ShaderSource::load_wgsl from src/shader.rs. -/
def ShaderSource.load_wgsl (fs : FS) (path : String) : ShaderSource :=
  ShaderSource.load fs path .Wgsl

/-- ShaderSource::load_spirv from src/shader.rs. -/
def ShaderSource.load_spirv (fs : FS) (path : String) : ShaderSource :=
  ShaderSource.load fs path .Spirv

/-- ShaderSource::reload from src/shader.rs: replace the whole value by a fresh load from
the stored path with the stored backend. -/
def ShaderSource.reload (fs : FS) (s : ShaderSource) : ShaderSource :=
  ShaderSource.load fs s.metadata.path s.metadata.backend

/-- ShaderSource::is_fallback from src/shader.rs. -/
def ShaderSource.is_fallback (s : ShaderSource) : Bool := s.source.isNone

/-- ShaderSource::make_fallback from src/shader.rs. -/
def ShaderSource.make_fallback (s : ShaderSource) : ShaderSource :=
  { s with source := none }

/-- ShaderSource::backend from src/shader.rs. -/
def ShaderSource.backend (s : ShaderSource) : ShaderBackend := s.metadata.backend

/-- ShaderSource::source_str from src/shader.rs. The Wgsl arm propagates a missing payload
as none through the question-mark operator and then unwraps the UTF-8 decode (aborting on
invalid bytes, which no load-produced state exhibits); the Spirv arm aborts
unconditionally. The decoded text is kept as its underlying bytes. -/
def ShaderSource.source_str (s : ShaderSource) : PanicOr (Option (List Nat)) :=
  match s.backend with
  | .Wgsl =>
    match s.source with
    | none => .ok none
    | some bytes => if validUtf8 bytes then .ok (some bytes) else .panics
  | .Spirv => .panics

/-- ShaderSource::source_words from src/shader.rs: the Wgsl arm aborts unconditionally;
the Spirv arm propagates a missing payload as none and otherwise yields the payload (the
reinterpretation of bytes as Spir-V words by wgpu make_spirv_raw is kept byte-level). -/
def ShaderSource.source_words (s : ShaderSource) : PanicOr (Option (List Nat)) :=
  match s.backend with
  | .Wgsl => .panics
  | .Spirv =>
    match s.source with
    | none => .ok none
    | some bytes => .ok (some bytes)

/-- Modelled from the spec: the built-in minimal placeholder WGSL program. The file
src/assets/fallback.wgsl is embedded with include_str at build time and is not present
under src/; only its identity as a fixed constant matters, so a fixed byte list stands in
for its text. -/
def fallbackWgsl : List Nat := [102, 97, 108, 108, 98, 97, 99, 107]

/-- wgpu ShaderModuleDescriptor as constructed by this library: a label and WGSL source
text (kept as UTF-8 bytes). Only the Wgsl source variant is ever constructed by the code
(the Spirv path aborts with todo before building a descriptor). -/
structure ShaderModuleDescriptor where
  label : Option String
  source : List Nat
  deriving DecidableEq, Repr

/-- ShaderSource::fallback_descriptor from src/shader.rs. -/
def ShaderSource.fallback_descriptor (s : ShaderSource) : ShaderModuleDescriptor :=
  { label := some s.metadata.name, source := fallbackWgsl }

/-- ShaderSource::descriptor from src/shader.rs: the fallback descriptor in fallback
state; otherwise the stored WGSL text (unwrapping source_str), or an abort via todo for
the Spirv backend. -/
def ShaderSource.descriptor (s : ShaderSource) : PanicOr ShaderModuleDescriptor :=
  match s.is_fallback with
  | false =>
    match s.backend with
    | .Wgsl =>
      match s.source_str with
      | .ok (some text) => .ok { label := some s.metadata.name, source := text }
      | .ok none => .panics
      | .panics => .panics
    | .Spirv => .panics
  | true => .ok s.fallback_descriptor

/-! ## src/lib.rs error types and the device model -/

/-- wgpu Error as captured by a validation error scope. -/
inductive WgpuError where
  | validation (message : String)
  deriving DecidableEq, Repr

/-- TextureError from src/lib.rs. -/
inductive TextureError where
  | invalidFormat (format : TextureFormat)
  deriving DecidableEq, Repr

/-- Error from src/lib.rs. The IO variant drops the payload of the underlying standard
library error, which the code never inspects. -/
inductive Error where
  | texture (e : TextureError)
  | io
  | wgpu (e : WgpuError)
  deriving DecidableEq, Repr

/-- The device as seen by the shader compiler: creating a shader module between
push_error_scope and pop_error_scope either captures a validation error for the given
descriptor or captures none. This is the synchronous summary of the error-capture-scope
bracket in create from src/shader.rs. -/
structure Device where
  compileError : ShaderModuleDescriptor → Option WgpuError

/-! ## src/shader.rs compiler entry points -/

/-- create from src/shader.rs: push a validation scope, create the module from the
dialect-appropriate descriptor, pop the scope; a captured error is returned as the error
result, otherwise the compiled module. The module handle is identified with the
descriptor it was compiled from. -/
def create (device : Device) (source : ShaderSource) :
    PanicOr (Except Error ShaderModuleDescriptor) :=
  match source.descriptor with
  | .panics => .panics
  | .ok desc =>
    match device.compileError desc with
    | some e => .ok (.error (.wgpu e))
    | none => .ok (.ok desc)

/-- State-passing form of create: the Rust signature borrows the source immutably, which
this embedding renders as the source value passing through unchanged alongside the
result. -/
def create_st (device : Device) (source : ShaderSource) :
    ShaderSource × PanicOr (Except Error ShaderModuleDescriptor) :=
  (source, create device source)

/-- create_or_fallback from src/shader.rs: call create; on an error result, force the
source into fallback state and create again, unwrapping the retried result (an abort if
the retry also errors) and surfacing the original error. The returned source component is
the final state of the mutably borrowed source. -/
def create_or_fallback (device : Device) (source : ShaderSource) :
    PanicOr (ShaderSource × ShaderModuleDescriptor × Option Error) :=
  match create device source with
  | .panics => .panics
  | .ok (.ok m) => .ok (source, m, none)
  | .ok (.error e) =>
    let source' := source.make_fallback
    match create device source' with
    | .panics => .panics
    | .ok (.ok m) => .ok (source', m, some e)
    | .ok (.error _) => .panics

/-! ## src/texture.rs -/

/-- The decoded image handed to from_dynamic_image, from the image crate (external
dependency): the in-memory pixel layout together with dimensions and the raw buffer bytes
(multi-byte channels kept in their byte representation, as cast_slice reinterprets them
byte-identically). -/
inductive DynamicImage where
  | ImageLuma8 (width height : Nat) (data : List Nat)
  | ImageLuma16 (width height : Nat) (data : List Nat)
  | ImageRgba8 (width height : Nat) (data : List Nat)
  | ImageRgba16 (width height : Nat) (data : List Nat)
  | ImageRgba32F (width height : Nat) (data : List Nat)
  deriving DecidableEq, Repr

/-- Width accessor of a decoded image. -/
def DynamicImage.width : DynamicImage → Nat
  | .ImageLuma8 w _ _ => w
  | .ImageLuma16 w _ _ => w
  | .ImageRgba8 w _ _ => w
  | .ImageRgba16 w _ _ => w
  | .ImageRgba32F w _ _ => w

/-- Height accessor of a decoded image. -/
def DynamicImage.height : DynamicImage → Nat
  | .ImageLuma8 _ h _ => h
  | .ImageLuma16 _ h _ => h
  | .ImageRgba8 _ h _ => h
  | .ImageRgba16 _ h _ => h
  | .ImageRgba32F _ h _ => h

/-- Does the decoded image have the 8-bit luma layout. -/
def DynamicImage.isLuma8 : DynamicImage → Bool
  | .ImageLuma8 _ _ _ => true
  | _ => false

/-- Does the decoded image have the 16-bit luma layout. -/
def DynamicImage.isLuma16 : DynamicImage → Bool
  | .ImageLuma16 _ _ _ => true
  | _ => false

/-- Does the decoded image have the 8-bit RGBA layout. -/
def DynamicImage.isRgba8 : DynamicImage → Bool
  | .ImageRgba8 _ _ _ => true
  | _ => false

/-- The byte buffer handed to write_texture: either an image or file buffer used as-is
(as_raw or a byte-identical cast_slice reinterpretation, and raw file bytes for load_raw),
or the result of an in-memory conversion by the image crate (to_rgba8, to_rgba16,
to_rgba32f), kept symbolic since the image crate is an external collaborator whose pixel
arithmetic the claims never inspect. -/
inductive UploadBytes where
  | native (data : List Nat)
  | raw (data : List Nat)
  | toRgba8 (img : DynamicImage)
  | toRgba16 (img : DynamicImage)
  | toRgba32f (img : DynamicImage)
  deriving DecidableEq, Repr

/-- Calls issued against the external device or queue, reified as a trace. -/
inductive DeviceCall where
  | createTexture (desc : TextureDescriptor)
  | writeTexture (dst : TextureDescriptor) (bytes : UploadBytes)
      (layout : TexelCopyBufferLayout) (size : Extent3d)
  | createBindGroupLayout (label : String) (entries : List BindGroupLayoutEntry)
  | createBindGroup (label : String) (layout : List BindGroupLayoutEntry)
      (entries : List BindGroupEntry)
  deriving DecidableEq, Repr

/-- create_sequential_linked from src/binding.rs: build every entry with its position as
binding index, collect the layout entries and the group entries, then create the layout
and the group against it. The created handles are represented by the two entry lists; the
trace records both device creation calls. -/
def create_sequential_linked (label : String) (entries : List BindingEntry) :
    (List BindGroupLayoutEntry × List BindGroupEntry) × List DeviceCall :=
  let built := entries.enum.map (fun p => p.2.build p.1)
  let bind_group_layout_entries := built.map Prod.fst
  let bind_group_entries := built.map Prod.snd
  ((bind_group_layout_entries, bind_group_entries),
   [.createBindGroupLayout label bind_group_layout_entries,
    .createBindGroup label bind_group_layout_entries bind_group_entries])

/-- create_sequential_with_layout from src/binding.rs: pair each raw resource with its
position as binding index and create the group against the caller-supplied layout. -/
def create_sequential_with_layout (label : String) (layout : List BindGroupLayoutEntry)
    (entries : List BindingResource) : List BindGroupEntry × List DeviceCall :=
  let bind_group_entries :=
    entries.enum.map (fun p => BindGroupEntry.mk (toU32 p.1) p.2)
  (bind_group_entries, [.createBindGroup label layout bind_group_entries])

/-- load_raw from src/texture.rs: create the texture, read the file (propagating a read
failure as an IO error), look up the per-pixel byte size of the format (an invalid-format
error when undefined), then issue one write of the file bytes over the full declared
extent, with bytes-per-row the per-pixel size times the declared width and rows-per-image
the declared height exactly for the D3 dimension. -/
def load_raw (fs : FS) (path : String) (desc : TextureDescriptor) :
    List DeviceCall × Except Error Unit :=
  let createCall := DeviceCall.createTexture desc
  match fs.files path with
  | none => ([createCall], .error .io)
  | some bytes =>
    match desc.format.blockCopySize with
    | none => ([createCall], .error (.texture (.invalidFormat desc.format)))
    | some bytes_per_pixel =>
      let bytes_per_row := toU32 (bytes_per_pixel * desc.size.width)
      let rows_per_image :=
        match desc.dimension with
        | .D3 => some desc.size.height
        | _ => none
      ([createCall,
        .writeTexture desc (.raw bytes)
          { offset := 0, bytes_per_row := some bytes_per_row, rows_per_image := rows_per_image }
          desc.size],
       .ok ())

/-- The byte-selection match at the head of from_dynamic_image from src/texture.rs:
native buffers for exact layout matches, image-crate conversions in the catch-all arms of
the RGBA target formats, and an invalid-format error for the single-channel target
formats with any other layout and for every format outside the dispatch. -/
def dynamic_image_bytes (target_format : TextureFormat) (image : DynamicImage) :
    Except TextureError UploadBytes :=
  match target_format with
  | .R8Unorm =>
    match image with
    | .ImageLuma8 _ _ data => .ok (.native data)
    | _ => .error (.invalidFormat target_format)
  | .R16Unorm =>
    match image with
    | .ImageLuma16 _ _ data => .ok (.native data)
    | _ => .error (.invalidFormat target_format)
  | .Rgba8Unorm | .Rgba8UnormSrgb =>
    match image with
    | .ImageRgba8 _ _ data => .ok (.native data)
    | _ => .ok (.toRgba8 image)
  | .Rgba16Unorm =>
    match image with
    | .ImageRgba16 _ _ data => .ok (.native data)
    | _ => .ok (.toRgba16 image)
  | .Rgba32Float =>
    match image with
    | .ImageRgba32F _ _ data => .ok (.native data)
    | _ => .ok (.toRgba32f image)
  | _ => .error (.invalidFormat target_format)

/-- from_dynamic_image from src/texture.rs: select or convert the source bytes per the
dispatch (returning the invalid-format error before any device interaction on a failed
match), look up the per-pixel byte size, then create a fresh 2-D single-mip single-sample
texture sized to the image and issue one write over it with rows-per-image omitted. -/
def from_dynamic_image (image : DynamicImage) (label : String)
    (target_format : TextureFormat) (texture_usage : Nat) :
    List DeviceCall × Except Error Unit :=
  match dynamic_image_bytes target_format image with
  | .error e => ([], .error (.texture e))
  | .ok bytes =>
    match target_format.blockCopySize with
    | none => ([], .error (.texture (.invalidFormat target_format)))
    | some bytes_per_pixel =>
      let bytes_per_row := toU32 (bytes_per_pixel * image.width)
      let desc : TextureDescriptor :=
        { label := some label,
          size := { width := image.width, height := image.height, depth_or_array_layers := 1 },
          mip_level_count := 1,
          sample_count := 1,
          dimension := .D2,
          format := target_format,
          usage := texture_usage,
          view_formats := [] }
      ([.createTexture desc,
        .writeTexture desc bytes
          { offset := 0, bytes_per_row := some bytes_per_row, rows_per_image := none }
          desc.size],
       .ok ())

/-- An existing GPU texture as seen by copy: its handle and its full extent. -/
structure Texture where
  id : Nat
  size : Extent3d
  deriving DecidableEq, Repr

/-- Diagnostics emitted through the log facade. -/
inductive LogEvent where
  | errorSizeMismatch
  deriving DecidableEq, Repr

/-- Calls issued against the external command encoder. -/
inductive EncoderCall where
  | copyTextureToTexture (src : Nat) (dst : Nat) (size : Extent3d)
  deriving DecidableEq, Repr

/-- copy from src/texture.rs: log one size-mismatch diagnostic when the extents differ,
then unconditionally encode a copy of the full source extent into the destination. -/
def copy (src : Texture) (dst : Texture) : List LogEvent × List EncoderCall :=
  ((if src.size ≠ dst.size then [LogEvent.errorSizeMismatch] else []),
   [EncoderCall.copyTextureToTexture src.id dst.id src.size])

/-! ## Concrete fixtures used by witnesses and counterexamples -/

/-- A file system holding one two-byte ASCII file. -/
def fs0 : FS := { files := fun p => if p = "a.wgsl" then some [104, 105] else none }

/-- A WGSL program text that the concrete device below rejects. -/
def badProgram : List Nat := [98, 97, 100]

/-- A loaded WGSL shader source holding badProgram. -/
def shaderSource0 : ShaderSource :=
  { metadata := { name := "s", path := "s.wgsl", backend := .Wgsl },
    source := some badProgram }

/-- A loaded Spir-V shader source. -/
def spirvSource0 : ShaderSource :=
  { metadata := { name := "t", path := "t.spv", backend := .Spirv },
    source := some [0, 1, 2, 3] }

/-- A device that rejects exactly the badProgram text with a validation error. -/
def device0 : Device :=
  { compileError := fun d => if d.source = badProgram then some (.validation "e") else none }

/-- A device that validates every module. -/
def deviceOk : Device := { compileError := fun _ => none }

/-- The module handle compiled from shaderSource0 on a device that accepts it. -/
def module0 : ShaderModuleDescriptor := { label := some "s", source := badProgram }

/-- A hand-built array-typed descriptor whose declared arity 2 differs from its single
supplied texture view. -/
def mismatchedEntry : BindingEntry :=
  { binding_type := .texture (.float true) .D2 false,
    count := some 2,
    resource := .textureViewArray [5] }

/-- A hand-built array-typed descriptor with declared arity zero. -/
def zeroArityEntry : BindingEntry :=
  { binding_type := .sampler .filtering,
    count := some 0,
    resource := .samplerArray [] }

/-- A descriptor requesting a format with no defined per-pixel copy size. -/
def depthDesc : TextureDescriptor :=
  { label := none,
    size := { width := 4, height := 4, depth_or_array_layers := 1 },
    mip_level_count := 1,
    sample_count := 1,
    dimension := .D2,
    format := .Depth24Plus,
    usage := 0,
    view_formats := [] }

/-- A D3-dimension descriptor whose declared depth is 1. -/
def volumeDesc : TextureDescriptor :=
  { label := none,
    size := { width := 2, height := 3, depth_or_array_layers := 1 },
    mip_level_count := 1,
    sample_count := 1,
    dimension := .D3,
    format := .R8Unorm,
    usage := 0,
    view_formats := [] }

/-! ## Theorems -/

/-- C1: for every ordered list of N binding descriptors passed to
create_sequential_linked, the produced layout entry list and group entry list each
contain exactly N entries, and for every position i below N (within the u32 range the
cast preserves), entry i of both lists carries binding index i. -/
theorem create_sequential_linked_sequential_indices (label : String)
    (entries : List BindingEntry) :
    ((create_sequential_linked label entries).1.1.length = entries.length ∧
     (create_sequential_linked label entries).1.2.length = entries.length) ∧
    ∀ i : Nat, i < entries.length → i < 2 ^ 32 →
      ((create_sequential_linked label entries).1.1[i]?).map BindGroupLayoutEntry.binding
        = some i ∧
      ((create_sequential_linked label entries).1.2[i]?).map BindGroupEntry.binding
        = some i := by
  constructor
  · constructor <;> simp [create_sequential_linked, List.enum_length]
  · intro i hi hfit
    have hg : entries[i]? = some entries[i] := List.getElem?_eq_getElem hi
    have hlt : i < 4294967296 := by norm_num at hfit; exact hfit
    constructor <;>
      simp [create_sequential_linked, List.getElem?_map, List.getElem?_enum, hg,
        BindingEntry.build, toU32, Nat.mod_eq_of_lt hlt]

/-- C1 witness: a concrete two-entry build, showing entry 1 of the layout list carries
binding index 1. -/
theorem create_sequential_linked_sequential_indices_witness :
    ((create_sequential_linked "g" [bind_buffer_uniform 0, bind_sampler 1 .filtering]).1.1[1]?).map
        BindGroupLayoutEntry.binding = some 1 :=
  ((create_sequential_linked_sequential_indices "g"
      [bind_buffer_uniform 0, bind_sampler 1 .filtering]).2 1 (by decide) (by decide)).1

/-- C6 counterexample: a descriptor whose declared arity 2 differs from its one supplied
resource handle is not rejected: create_sequential_linked still issues both device
creation calls (its result carries no error at all), so the build does not fail before a
device call. -/
theorem arity_mismatch_not_rejected_before_device :
    mismatchedEntry.count = some 2 ∧
    mismatchedEntry.resource.resourceCount = 1 ∧
    (create_sequential_linked "bad" [mismatchedEntry]).2.length = 2 := by
  refine ⟨rfl, rfl, rfl⟩

/-- C6 amended: the provided array constructors set the declared arity equal to the
number of supplied handles by construction; no separate arity validation exists: an
arity of zero is silently turned into a non-array layout entry (count none) by the
NonZero conversion rather than rejected, and building a group from any descriptor list,
mismatched or not, always issues both device creation calls (mismatches surface only at
device-side validation). -/
theorem binding_arity_by_construction (views samplers : List Nat)
    (st : TextureSampleType) (vd : TextureViewDimension) (fmt : TextureFormat)
    (access : StorageTextureAccess) (sb : SamplerBindingType)
    (e : BindingEntry) (i : Nat) (label : String) (entries : List BindingEntry) :
    (bind_textures views st vd).count = some views.length ∧
    (bind_textures views st vd).resource.resourceCount = views.length ∧
    (bind_storage_textures views fmt vd access).count = some views.length ∧
    (bind_storage_textures views fmt vd access).resource.resourceCount = views.length ∧
    (bind_samplers samplers sb).count = some samplers.length ∧
    (bind_samplers samplers sb).resource.resourceCount = samplers.length ∧
    (e.count = some 0 → ((e.build i).1).count = none) ∧
    (create_sequential_linked label entries).2.length = 2 := by
  refine ⟨rfl, rfl, rfl, rfl, rfl, rfl, ?_, rfl⟩
  intro h
  simp [BindingEntry.build, h, toU32]

/-- C6 witness: the zero-arity descriptor builds to a layout entry with no array count. -/
theorem binding_arity_by_construction_witness :
    ((zeroArityEntry.build 0).1).count = none :=
  (binding_arity_by_construction [] [] (.float true) .D2 .R8Unorm .writeOnly .filtering
      zeroArityEntry 0 "w" []).2.2.2.2.2.2.1 rfl

/-- C8: texture-to-texture copy is total; it always encodes exactly one copy covering the
full extent of the source, and it logs exactly one size-mismatch diagnostic when the
extents differ and none otherwise. -/
theorem copy_full_extent_one_diagnostic (src dst : Texture) :
    (copy src dst).2 = [EncoderCall.copyTextureToTexture src.id dst.id src.size] ∧
    (copy src dst).1.length = (if src.size = dst.size then 0 else 1) := by
  refine ⟨rfl, ?_⟩
  by_cases h : src.size = dst.size <;> simp [copy, h]

/-- C3: load is total (no error channel), the loaded source is fallback exactly when the
read (including the UTF-8 decode of the text dialect) fails, and reload re-runs load with
the stored path and dialect, so its fallback state again reflects the read outcome
against the file system passed at reload time. -/
theorem load_fallback_iff_read_fails (fs : FS) (path : String)
    (backend : ShaderBackend) (s : ShaderSource) :
    ((ShaderSource.load fs path backend).is_fallback = true ↔
      read_shader_source fs path backend = none) ∧
    ShaderSource.reload fs s = ShaderSource.load fs s.metadata.path s.metadata.backend ∧
    ((ShaderSource.reload fs s).is_fallback = true ↔
      read_shader_source fs s.metadata.path s.metadata.backend = none) := by
  refine ⟨?_, rfl, ?_⟩ <;>
    simp [ShaderSource.load, ShaderSource.reload, ShaderSource.is_fallback,
      Option.isNone_iff_eq_none]

/-- C3 witness: loading a missing file yields a fallback source; loading the present file
yields a non-fallback source. -/
theorem load_fallback_iff_read_fails_witness :
    (ShaderSource.load fs0 "b.wgsl" .Wgsl).is_fallback = true ∧
    (ShaderSource.load fs0 "a.wgsl" .Wgsl).is_fallback ≠ true :=
  ⟨(load_fallback_iff_read_fails fs0 "b.wgsl" .Wgsl shaderSource0).1.mpr (by decide),
   fun h => by
     have h2 := (load_fallback_iff_read_fails fs0 "a.wgsl" .Wgsl shaderSource0).1.mp h
     exact absurd h2 (by decide)⟩

/-- C2: with the built-in placeholder validating on the device (the spec treats the
placeholder as unconditionally valid), create_or_fallback returns the module of a
succeeding initial create with no diagnostic; on a failing initial create it forces the
source into fallback state, retries, and returns the fallback-compiled module with the
original error; and a second call on the now-fallback source succeeds with no
diagnostic. -/
theorem create_or_fallback_never_fails (device : Device) (source : ShaderSource)
    (hf : device.compileError source.fallback_descriptor = none) :
    (∀ m, create device source = .ok (.ok m) →
      create_or_fallback device source = .ok (source, m, none)) ∧
    (∀ e, create device source = .ok (.error e) →
      create_or_fallback device source =
        .ok (source.make_fallback, source.fallback_descriptor, some e)) ∧
    create device source.make_fallback = .ok (.ok source.fallback_descriptor) ∧
    create_or_fallback device source.make_fallback =
      .ok (source.make_fallback, source.fallback_descriptor, none) := by
  have hfb : create device source.make_fallback = .ok (.ok source.fallback_descriptor) := by
    have h1 : (source.make_fallback).descriptor = .ok source.fallback_descriptor := rfl
    simp [create, h1, hf]
  refine ⟨?_, ?_, hfb, ?_⟩
  · intro m hm
    simp [create_or_fallback, hm]
  · intro e he
    simp [create_or_fallback, he, hfb]
  · simp [create_or_fallback, hfb]

/-- C2 witness: the concrete device rejects the concrete program, and create_or_fallback
returns the fallback module together with the original validation error. -/
theorem create_or_fallback_never_fails_witness :
    create_or_fallback device0 shaderSource0 =
      .ok (shaderSource0.make_fallback, shaderSource0.fallback_descriptor,
        some (.wgpu (.validation "e"))) :=
  (create_or_fallback_never_fails device0 shaderSource0 (by decide)).2.1
    (.wgpu (.validation "e")) rfl

/-- C9 counterexample: extracting source text from a text-dialect source after
make_fallback is not an abort: source_str propagates the missing payload and returns a
None result. -/
theorem make_fallback_source_str_is_none :
    (shaderSource0.make_fallback).source_str ≠ .panics ∧
    (shaderSource0.make_fallback).source_str = .ok none := by
  refine ⟨by decide, rfl⟩

/-- C9 amended: after make_fallback on a text-dialect source, source_str returns a None
result (neither an abort nor an error); requesting text-form access on a binary-dialect
source aborts, in or out of fallback state. -/
theorem source_text_access_behavior (s : ShaderSource) :
    (s.backend = .Wgsl → (s.make_fallback).source_str = .ok none) ∧
    (s.backend = .Spirv → s.source_str = .panics) ∧
    (s.backend = .Spirv → (s.make_fallback).source_str = .panics) := by
  refine ⟨?_, ?_, ?_⟩ <;>
    · intro h
      simp [ShaderSource.source_str, ShaderSource.make_fallback, ShaderSource.backend] at *
      simp [h]

/-- C9 witness: text access on the concrete binary-dialect source aborts. -/
theorem source_text_access_behavior_witness :
    spirvSource0.source_str = .panics :=
  (source_text_access_behavior spirvSource0).2.1 rfl

/-- C10: create leaves the shader source exactly as it was, whether it returns a module
or a validation error (the state-passing embedding of its shared borrow), while
create_or_fallback returns the source unchanged when the initial create succeeds and in
fallback state exactly when the initial create fails. -/
theorem create_does_not_mutate_source (device : Device) (source : ShaderSource) :
    (create_st device source).1 = source ∧
    (∀ m, create device source = .ok (.ok m) →
      ∀ r, create_or_fallback device source = .ok r → r.1 = source) ∧
    (∀ e, create device source = .ok (.error e) →
      ∀ r, create_or_fallback device source = .ok r → r.1 = source.make_fallback) := by
  refine ⟨rfl, ?_, ?_⟩
  · intro m hm r hr
    simp [create_or_fallback, hm] at hr
    simp [← hr]
  · intro e he r hr
    rcases h2 : create device source.make_fallback with _ | res
    · simp [create_or_fallback, he, h2] at hr
    · rcases res with e2 | m2
      · simp [create_or_fallback, he, h2] at hr
      · simp [create_or_fallback, he, h2] at hr
        simp [← hr]

/-- C10 witness: on an always-validating device the compiled module is returned and the
source comes back unchanged. -/
theorem create_does_not_mutate_source_witness :
    (create_st deviceOk shaderSource0).1 = shaderSource0 ∧
    (shaderSource0, module0, (none : Option Error)).1 = shaderSource0 :=
  ⟨(create_does_not_mutate_source deviceOk shaderSource0).1,
   (create_does_not_mutate_source deviceOk shaderSource0).2.1 module0 rfl
     (shaderSource0, module0, none) rfl⟩

/-- C4 counterexample: an 8-bit luma image requested as Rgba8Unorm does not fail with an
invalid-format error: the catch-all arm of the RGBA target converts it with to_rgba8 and
the upload succeeds. -/
theorem luma8_as_rgba8_succeeds_by_conversion :
    dynamic_image_bytes .Rgba8Unorm (.ImageLuma8 1 1 [7])
      = .ok (.toRgba8 (.ImageLuma8 1 1 [7])) ∧
    (from_dynamic_image (.ImageLuma8 1 1 [7]) "t" .Rgba8Unorm 0).2 = .ok () := by
  exact ⟨rfl, rfl⟩

/-- C4 amended: from_dynamic_image dispatches as follows. The single-channel targets
R8Unorm and R16Unorm accept exactly their matching luma layout and fail with an
invalid-format error otherwise; every RGBA target (Rgba8Unorm, Rgba8UnormSrgb,
Rgba16Unorm, Rgba32Float) accepts every layout, using the native buffer on an exact match
and an in-memory image-crate conversion otherwise; every format outside these six fails
with an invalid-format error; and every failure returns before any device call is
made. -/
theorem dynamic_image_format_dispatch (image : DynamicImage) (label : String)
    (usage : Nat) (fmt : TextureFormat) :
    ((dynamic_image_bytes .R8Unorm image).isOk = image.isLuma8) ∧
    ((dynamic_image_bytes .R16Unorm image).isOk = image.isLuma16) ∧
    (dynamic_image_bytes .Rgba8Unorm image).isOk = true ∧
    (dynamic_image_bytes .Rgba8UnormSrgb image).isOk = true ∧
    (dynamic_image_bytes .Rgba16Unorm image).isOk = true ∧
    (dynamic_image_bytes .Rgba32Float image).isOk = true ∧
    (∀ w h d2, dynamic_image_bytes .R8Unorm (.ImageLuma8 w h d2) = .ok (.native d2)) ∧
    (image.isRgba8 = false → dynamic_image_bytes .Rgba8Unorm image = .ok (.toRgba8 image)) ∧
    (fmt.blockCopySize = none → dynamic_image_bytes fmt image = .error (.invalidFormat fmt)) ∧
    (∀ e, dynamic_image_bytes fmt image = .error e →
      from_dynamic_image image label fmt usage = ([], .error (.texture e))) := by
  refine ⟨?_, ?_, ?_, ?_, ?_, ?_, ?_, ?_, ?_, ?_⟩
  · cases image <;> rfl
  · cases image <;> rfl
  · cases image <;> rfl
  · cases image <;> rfl
  · cases image <;> rfl
  · cases image <;> rfl
  · intro w h d2
    rfl
  · intro h
    cases image <;> first | rfl | simp [DynamicImage.isRgba8] at h
  · intro h
    cases fmt <;> first | rfl | simp [TextureFormat.blockCopySize] at h
  · intro e he
    simp [from_dynamic_image, he]

/-- C4 witness: a concrete non-whitelisted format fails before any device call. -/
theorem dynamic_image_format_dispatch_witness :
    from_dynamic_image (.ImageLuma8 1 1 [7]) "t" .Depth24Plus 0
      = ([], .error (.texture (.invalidFormat .Depth24Plus))) :=
  (dynamic_image_format_dispatch (.ImageLuma8 1 1 [7]) "t" 0 .Depth24Plus).2.2.2.2.2.2.2.2.2
    (.invalidFormat .Depth24Plus) rfl

/-- C5 counterexample: a raw upload with a format lacking a per-pixel byte size does fail
with an invalid-format error and issues no write, but not before any device call: the
texture-creation device call has already been issued when the format check runs. -/
theorem load_raw_invalid_format_after_create_call :
    load_raw fs0 "a.wgsl" depthDesc
      = ([.createTexture depthDesc], .error (.texture (.invalidFormat .Depth24Plus))) ∧
    DeviceCall.createTexture depthDesc ∈ (load_raw fs0 "a.wgsl" depthDesc).1 := by
  exact ⟨rfl, by decide⟩

/-- C5 amended: a raw upload whose file read succeeds and whose format has no defined
per-pixel byte size fails with an invalid-format error detected after the
texture-creation device call but before any device write: the trace holds exactly the
creation call and no write. -/
theorem load_raw_invalid_format_no_write (fs : FS) (path : String)
    (desc : TextureDescriptor) (bytes : List Nat)
    (hread : fs.files path = some bytes)
    (hfmt : desc.format.blockCopySize = none) :
    load_raw fs path desc
      = ([.createTexture desc], .error (.texture (.invalidFormat desc.format))) := by
  simp [load_raw, hread, hfmt]

/-- C5 witness: the concrete depth-format upload against the concrete file system. -/
theorem load_raw_invalid_format_no_write_witness :
    load_raw fs0 "a.wgsl" depthDesc
      = ([.createTexture depthDesc], .error (.texture (.invalidFormat .Depth24Plus))) :=
  load_raw_invalid_format_no_write fs0 "a.wgsl" depthDesc [104, 105] (by decide) rfl

/-- C7 counterexample: a D3-dimension target whose declared depth is 1 (not greater than
1) still gets rows-per-image supplied, so rows-per-image is keyed on the texture
dimension, not on depth being greater than 1. -/
theorem load_raw_rows_per_image_d3_depth_one :
    volumeDesc.size.depth_or_array_layers = 1 ∧
    load_raw fs0 "a.wgsl" volumeDesc
      = ([.createTexture volumeDesc,
          .writeTexture volumeDesc (.raw [104, 105])
            { offset := 0, bytes_per_row := some 2, rows_per_image := some 3 }
            volumeDesc.size],
         .ok ()) := by
  exact ⟨rfl, rfl⟩

/-- C7 amended: for a raw upload whose file read succeeds and whose format has a defined
per-pixel byte size (with the product fitting u32), load_raw issues exactly one write
covering the full declared extent, with bytes-per-row the per-pixel size times the
declared width, and rows-per-image the declared height exactly when the texture dimension
is D3 (regardless of the declared depth) and omitted otherwise. -/
theorem load_raw_write_layout (fs : FS) (path : String) (desc : TextureDescriptor)
    (bytes : List Nat) (bpp : Nat)
    (hread : fs.files path = some bytes)
    (hfmt : desc.format.blockCopySize = some bpp)
    (hfit : bpp * desc.size.width < 2 ^ 32) :
    load_raw fs path desc
      = ([.createTexture desc,
          .writeTexture desc (.raw bytes)
            { offset := 0,
              bytes_per_row := some (bpp * desc.size.width),
              rows_per_image :=
                match desc.dimension with
                | .D3 => some desc.size.height
                | _ => none }
            desc.size],
         .ok ()) := by
  have hlt : bpp * desc.size.width < 4294967296 := by norm_num at hfit; exact hfit
  simp [load_raw, hread, hfmt, toU32, Nat.mod_eq_of_lt hlt]

/-- C7 witness: a concrete 2-D upload, whose write omits rows-per-image. -/
theorem load_raw_write_layout_witness :
    load_raw fs0 "a.wgsl"
        { depthDesc with format := .R8Unorm }
      = ([.createTexture { depthDesc with format := .R8Unorm },
          .writeTexture { depthDesc with format := .R8Unorm } (.raw [104, 105])
            { offset := 0, bytes_per_row := some 4, rows_per_image := none }
            { width := 4, height := 4, depth_or_array_layers := 1 }],
         .ok ()) :=
  load_raw_write_layout fs0 "a.wgsl" { depthDesc with format := .R8Unorm }
    [104, 105] 1 (by decide) rfl (by decide)

end Wgputil

